import Mathlib

/-!
Shallow embedding of the core game logic of the SnakeGame repository
(src/src/snake.rs and src/src/game.rs).

Conventions of the embedding:
* Rust `i32` coordinates become `ℤ` (no claim depends on 32-bit overflow).
* The `f64` timing accumulator becomes `ℚ`; every timing comparison a claim
  touches (`0.5 + 0.6 > 1.0`, resets to `0`) has the same outcome over `ℚ`
  as over IEEE doubles.
* `LinkedList<Block>` becomes `List Block`, front of the list = head of the
  snake; `pop_back` = `List.getLast?` plus `List.dropLast`, `push_front` =
  `List.cons`, `push_back` = append of a singleton.
* A Rust panic (the `unwrap` in `Snake::grow`) and the potentially
  non-terminating recursion in `Game::add_food` are modelled by returning
  `none`; the random candidates drawn by `thread_rng` inside `add_food`
  are supplied as an explicit list of coordinate pairs, consumed in order.
-/

namespace SnakeGame

/-- The `Direction` enum of snake.rs. -/
inductive Direction where
  | Up
  | Down
  | Left
  | Right
deriving DecidableEq

/-- `Direction::opposite` (snake.rs:19-26). -/
def Direction.opposite : Direction → Direction
  | .Up => .Down
  | .Down => .Up
  | .Left => .Right
  | .Right => .Left

/-- The `Block` struct of snake.rs: one occupied grid cell. -/
structure Block where
  x : ℤ
  y : ℤ
deriving DecidableEq

/-- The `Snake` struct of snake.rs: heading, body (front = head), and the
most recently removed tail block. -/
structure Snake where
  direction : Direction
  body : List Block
  tail : Option Block
deriving DecidableEq

/-- `Snake::new` (snake.rs:42-50): three blocks pushed at the back, head at
`(x+2, y)`, heading Right, no saved tail. -/
def Snake.new (x y : ℤ) : Snake :=
  { direction := Direction.Right
    body := [⟨x + 2, y⟩, ⟨x + 1, y⟩, ⟨x, y⟩]
    tail := none }

/-- `Snake::head_position` (snake.rs:58-63): coordinates of the front block,
with the defensive fallback `(2, 2)` for an empty body. -/
def Snake.head_position (s : Snake) : ℤ × ℤ :=
  match s.body.head? with
  | some b => (b.x, b.y)
  | none => (2, 2)

/-- `Snake::has_head_at` (snake.rs:65-70). -/
def Snake.has_head_at (s : Snake) (x y : ℤ) : Bool :=
  match s.body.head? with
  | some b => x == b.x && y == b.y
  | none => false

/-- `Snake::next_head_coords` (snake.rs:82-91): offset the head one cell in
the override direction, falling back to the current heading when the
override is absent. -/
def Snake.next_head_coords (s : Snake) (dir : Option Direction) : ℤ × ℤ :=
  let p := s.head_position
  match dir.getD s.direction with
  | .Up => (p.1, p.2 - 1)
  | .Down => (p.1, p.2 + 1)
  | .Left => (p.1 - 1, p.2)
  | .Right => (p.1 + 1, p.2)

/-- `Snake::move_forward` (snake.rs:72-76): save the popped tail block, push
the new head in front. The `direction` field is not updated. -/
def Snake.move_forward (s : Snake) (dir : Option Direction) : Snake :=
  let p := s.next_head_coords dir
  { s with tail := s.body.getLast?, body := ⟨p.1, p.2⟩ :: s.body.dropLast }

/-- `Snake::head_direction` (snake.rs:78-80). -/
def Snake.head_direction (s : Snake) : Direction :=
  s.direction

/-- `Snake::grow` (snake.rs:93-96): push a copy of the saved tail at the
back. The `unwrap` panics when no tail was ever saved; the panic is
modelled as `none`. -/
def Snake.grow (s : Snake) : Option Snake :=
  s.tail.map (fun t => { s with body := s.body ++ [t] })

/-- `Snake::is_crawling_over` (snake.rs:98-100): `iter().all(...)` — true
only when EVERY body block equals the given coordinates. -/
def Snake.is_crawling_over (s : Snake) (x y : ℤ) : Bool :=
  s.body.all (fun b => x == b.x && y == b.y)

/-- The key codes the game reacts to: the four arrow keys of the
`piston_window::Key` enum, plus an abstract code for every other key. -/
inductive Key where
  | Up
  | Down
  | Left
  | Right
  | Other (code : ℕ)
deriving DecidableEq

/-- The `Game` struct of game.rs. -/
structure Game where
  snake : Snake
  food_exists : Bool
  food_x : ℤ
  food_y : ℤ
  width : ℤ
  height : ℤ
  game_over : Bool
  waiting_time : ℚ
deriving DecidableEq

/-- `MOVING_PERIOD` (game.rs:13). -/
def MOVING_PERIOD : ℚ := 1 / 10

/-- `RESTART_TIME` (game.rs:14). -/
def RESTART_TIME : ℚ := 1

/-- `Game::new` (game.rs:31-42). -/
def Game.new (width height : ℤ) : Game :=
  { snake := Snake.new 2 2
    waiting_time := 0
    food_exists := true
    food_x := 6
    food_y := 4
    width := width
    height := height
    game_over := false }

/-- The key-to-direction mapping inside `Game::key_pressed` (game.rs:49-55):
only the four arrow keys map to a direction, everything else to `none`. -/
def keyToDirection : Key → Option Direction
  | .Up => some Direction.Up
  | .Down => some Direction.Down
  | .Right => some Direction.Right
  | .Left => some Direction.Left
  | .Other _ => none

/-- `Game::is_snake_alive` (game.rs:104-113). Line 105 of the source writes
`self.snake.next_head_coords()`, omitting the `dir` argument that the
signature of `next_head_coords` requires — rustc rejects that call
(E0061), so the function as written does not compile and its `dir`
parameter is dead. Modelled from the spec: the collision rule says the
next head is computed from the candidate direction override, so the call
is rendered as `next_head_coords dir`. See `Game.is_snake_aliveNoDir`
for the reading in which the override is never consulted. -/
def Game.is_snake_alive (g : Game) (dir : Option Direction) : Bool :=
  let p := g.snake.next_head_coords dir
  if g.snake.is_crawling_over p.1 p.2 then false
  else
    decide (0 < p.1) && decide (p.1 < g.width - 1) &&
    decide (0 < p.2) && decide (p.2 < g.height - 1)

/-- The literal reading of game.rs:105: the argumentless call cannot pass
the override, so the next head is computed from the current heading alone
and the `dir` parameter is ignored. -/
def Game.is_snake_aliveNoDir (g : Game) (_dir : Option Direction) : Bool :=
  let p := g.snake.next_head_coords none
  if g.snake.is_crawling_over p.1 p.2 then false
  else
    decide (0 < p.1) && decide (p.1 < g.width - 1) &&
    decide (0 < p.2) && decide (p.2 < g.height - 1)

/-- `Game::check_eating` (game.rs:97-102): when food exists and the head is
on it, grow the snake (may panic, hence `Option`) and clear the food. -/
def Game.check_eating (g : Game) : Option Game :=
  if g.food_exists && g.snake.has_head_at g.food_x g.food_y then
    g.snake.grow.map (fun s => { g with snake := s, food_exists := false })
  else some g

/-- `Game::update_snake` (game.rs:131-139): if the liveness check passes,
move forward and run the eating check, otherwise set `game_over`; in
either case `waiting_time` is reset to `0` afterwards (after a panic in
`grow` the reset is never reached, hence the `Option.map`). -/
def Game.update_snake (g : Game) (dir : Option Direction) : Option Game :=
  (if g.is_snake_alive dir then
    Game.check_eating { g with snake := g.snake.move_forward dir }
  else
    some { g with game_over := true }).map
    (fun g2 => { g2 with waiting_time := 0 })

/-- `Game::key_pressed` (game.rs:44-58): no-op when the game is over,
otherwise an immediate snake update with the mapped direction. -/
def Game.key_pressed (g : Game) (key : Key) : Option Game :=
  if g.game_over then some g
  else g.update_snake (keyToDirection key)

/-- `Game::add_food` (game.rs:115-129): draw a candidate cell; if the snake
is crawling over it, recurse, otherwise store it as the food and set
`food_exists`. The random draws of `thread_rng` are supplied as the
explicit list `cands`, consumed in order; exhausting the list models the
recursion never terminating, hence `none`. -/
def Game.add_food (g : Game) : List (ℤ × ℤ) → Option Game
  | [] => none
  | c :: rest =>
    if g.snake.is_crawling_over c.1 c.2 then g.add_food rest
    else some { g with food_x := c.1, food_y := c.2, food_exists := true }

/-- `Game::restart` (game.rs:141-146): fresh snake at `(2, 2)`, timer and
game-over flag cleared, then food is placed. -/
def Game.restart (g : Game) (cands : List (ℤ × ℤ)) : Option Game :=
  Game.add_food
    { g with snake := Snake.new 2 2, waiting_time := 0, game_over := false }
    cands

/-- `Game::update` (game.rs:77-95): accumulate the elapsed time; while the
game is over, restart once the delay has elapsed; otherwise re-place
missing food and perform the periodic snake update once the moving
period has elapsed. -/
def Game.update (g : Game) (delta_time : ℚ) (cands : List (ℤ × ℤ)) :
    Option Game :=
  let g1 := { g with waiting_time := g.waiting_time + delta_time }
  if g1.game_over then
    if g1.waiting_time > RESTART_TIME then g1.restart cands else some g1
  else
    (if g1.food_exists then some g1 else g1.add_food cands).bind
      (fun g2 =>
        if g2.waiting_time > MOVING_PERIOD then g2.update_snake none
        else some g2)

/-- A concrete 10-by-10 game stuck in the game-over state with half of the
restart delay already accumulated; used to exercise the restart path. -/
def gameOverSample : Game :=
  { Game.new 10 10 with game_over := true, waiting_time := 1 / 2 }

/-- The structural well-formedness every in-game snake enjoys: the body
starts with two blocks at distinct cells and has at least one further
block (so its length is at least 3). -/
def SnakeInv (s : Snake) : Prop :=
  ∃ b0 b1 rest, s.body = b0 :: b1 :: rest ∧ b0 ≠ b1 ∧ rest ≠ []

/-- The game states reachable by driving the embedded API exactly as the
event loop does: construction, key presses, and timed updates (with the
random candidates of `add_food` supplied explicitly). -/
inductive Reachable : Game → Prop where
  | new (w h : ℤ) : Reachable (Game.new w h)
  | key (g : Game) (k : Key) (g' : Game) :
      Reachable g → g.key_pressed k = some g' → Reachable g'
  | tick (g : Game) (dt : ℚ) (cands : List (ℤ × ℤ)) (g' : Game) :
      Reachable g → g.update dt cands = some g' → Reachable g'

/-! ### Auxiliary lemmas -/

/-- Characterization of the degenerate crawl check: it holds exactly when
every body block sits at the probed cell. -/
theorem is_crawling_over_iff (s : Snake) (x y : ℤ) :
    s.is_crawling_over x y = true ↔ ∀ b ∈ s.body, b.x = x ∧ b.y = y := by
  simp only [Snake.is_crawling_over, List.all_eq_true, Bool.and_eq_true,
    beq_iff_eq]
  constructor
  · intro h b hb
    exact ⟨(h b hb).1.symm, (h b hb).2.symm⟩
  · intro h b hb
    exact ⟨(h b hb).1.symm, (h b hb).2.symm⟩

/-! ### Claim C1 -/

/-- Claim C1: the claim says `is_snake_alive(dir)` computes the next head
from the candidate override `dir`. Line 105 of game.rs calls
`next_head_coords` without its `dir` argument (rejected by rustc, E0061),
so the override is never consulted there. On `Game::new(6,6)` (head at
`(4,2)`, heading Right) with override `Some(Left)`, the reading in which
the override is dropped declares the snake dead (next head `(5,2)` is on
the border), while the behaviour the claim describes declares it alive
(next head `(3,2)` is interior). -/
theorem c1_override_dropped_in_source :
    Game.is_snake_aliveNoDir (Game.new 6 6) (some Direction.Left) = false ∧
    Game.is_snake_alive (Game.new 6 6) (some Direction.Left) = true := by
  decide

/-! ### Claim C2 -/

/-- Claim C2 counterexample: pressing a non-arrow key on a fresh game does
NOT leave the game state unchanged — it performs an immediate snake
update with no direction override, which moves the snake. -/
theorem c2_counterexample :
    Game.key_pressed (Game.new 10 10) (Key.Other 7) ≠ some (Game.new 10 10) := by
  decide

/-- Claim C2 (amended): for every key code other than the four arrow keys,
`key_pressed` maps the key to no direction override and performs the same
immediate snake update a periodic tick performs (`update_snake none`);
only when `game_over` is set does it leave the state unchanged. -/
theorem c2_non_arrow_key (g : Game) (k : Key)
    (h1 : k ≠ Key.Up) (h2 : k ≠ Key.Down) (h3 : k ≠ Key.Left)
    (h4 : k ≠ Key.Right) :
    g.key_pressed k =
      if g.game_over then some g else g.update_snake none := by
  have hk : keyToDirection k = none := by
    cases k <;> simp_all [keyToDirection]
  simp [Game.key_pressed, hk]

/-- Claim C2 witness: the amended behaviour at a concrete non-arrow key. -/
theorem c2_non_arrow_key_witness :
    Game.key_pressed (Game.new 10 10) (Key.Other 0) =
      if (Game.new 10 10).game_over then some (Game.new 10 10)
      else (Game.new 10 10).update_snake none :=
  c2_non_arrow_key (Game.new 10 10) (Key.Other 0)
    (by decide) (by decide) (by decide) (by decide)

/-! ### Claim C3 -/

/-- Claim C3: `is_crawling_over(x, y)` returns true exactly when every body
cell equals `(x, y)` — in particular, true only if every body cell
matches the given coordinates. -/
theorem c3_is_crawling_over_all (s : Snake) (x y : ℤ) :
    s.is_crawling_over x y = true ↔ ∀ b ∈ s.body, b.x = x ∧ b.y = y :=
  is_crawling_over_iff s x y

/-! ### Claim C4 -/

/-- Claim C4: on a snake with a nonempty body (the documented invariant
after construction), `move_forward` preserves the body length, saves
exactly the popped tail block, and places the new head at the
coordinates given by `next_head_coords`; moreover `Snake::new(2,2)` has
body `[(4,2),(3,2),(2,2)]` heading Right, and `move_forward(None)` on it
yields body `[(5,2),(4,2),(3,2)]`. -/
theorem c4_move_forward (s : Snake) (dir : Option Direction)
    (h : s.body ≠ []) :
    ((s.move_forward dir).body.length = s.body.length ∧
     (s.move_forward dir).body.head? =
       some ⟨(s.next_head_coords dir).1, (s.next_head_coords dir).2⟩ ∧
     (s.move_forward dir).tail = s.body.getLast?) ∧
    ((Snake.new 2 2).body = [⟨4, 2⟩, ⟨3, 2⟩, ⟨2, 2⟩] ∧
     (Snake.new 2 2).direction = Direction.Right ∧
     ((Snake.new 2 2).move_forward none).body = [⟨5, 2⟩, ⟨4, 2⟩, ⟨3, 2⟩]) := by
  refine ⟨⟨?_, rfl, rfl⟩, by decide⟩
  have hpos : 0 < s.body.length := List.length_pos.mpr h
  simp [Snake.move_forward, List.length_dropLast]
  omega

/-- Claim C4 witness: the general part applied to the fresh snake. -/
theorem c4_move_forward_witness :
    (((Snake.new 2 2).move_forward none).body.length =
        (Snake.new 2 2).body.length ∧
     ((Snake.new 2 2).move_forward none).body.head? =
       some ⟨((Snake.new 2 2).next_head_coords none).1,
             ((Snake.new 2 2).next_head_coords none).2⟩ ∧
     ((Snake.new 2 2).move_forward none).tail =
       (Snake.new 2 2).body.getLast?) ∧
    ((Snake.new 2 2).body = [⟨4, 2⟩, ⟨3, 2⟩, ⟨2, 2⟩] ∧
     (Snake.new 2 2).direction = Direction.Right ∧
     ((Snake.new 2 2).move_forward none).body = [⟨5, 2⟩, ⟨4, 2⟩, ⟨3, 2⟩]) :=
  c4_move_forward (Snake.new 2 2) none (by decide)

/-! ### Claim C6 -/

/-- Claim C6: before any `move_forward` has occurred no tail block has been
saved (`tail = none`), and `grow` then fails — the `unwrap` panic,
modelled as `none` — rather than returning any snake state. -/
theorem c6_grow_without_tail (s : Snake) (h : s.tail = none) :
    s.grow = none := by
  simp [Snake.grow, h]

/-- Claim C6 witness: `grow` on a freshly constructed snake fails. -/
theorem c6_grow_without_tail_witness :
    (Snake.new 2 2).tail = none ∧ (Snake.new 2 2).grow = none :=
  ⟨rfl, c6_grow_without_tail (Snake.new 2 2) rfl⟩

/-! ### Claim C5 -/

/-- Claim C5: with the game not over, `update_snake` evaluates the liveness
check; when alive it performs the move followed by the eating check, when
not alive it sets `game_over`; and every completed call leaves
`waiting_time` at `0` (re-zeroing the result changes nothing). -/
theorem c5_update_snake (g : Game) (dir : Option Direction)
    (_h : g.game_over = false) :
    (g.is_snake_alive dir = true →
      g.update_snake dir =
        (Game.check_eating { g with snake := g.snake.move_forward dir }).map
          (fun g2 => { g2 with waiting_time := 0 })) ∧
    (g.is_snake_alive dir = false →
      g.update_snake dir =
        some { g with game_over := true, waiting_time := 0 }) ∧
    ((g.update_snake dir).map (fun g2 => { g2 with waiting_time := 0 }) =
      g.update_snake dir) := by
  refine ⟨fun ha => by simp [Game.update_snake, ha],
          fun ha => by simp [Game.update_snake, ha], ?_⟩
  simp only [Game.update_snake, Option.map_map]
  generalize (if g.is_snake_alive dir then
      Game.check_eating { g with snake := g.snake.move_forward dir }
    else some { g with game_over := true }) = o
  cases o <;> rfl

/-- Claim C5 witness: the three-part behaviour at a fresh game. -/
theorem c5_update_snake_witness :
    (Game.new 10 10).game_over = false ∧
    (((Game.new 10 10).is_snake_alive none = true →
      (Game.new 10 10).update_snake none =
        (Game.check_eating
            { Game.new 10 10 with
                snake := (Game.new 10 10).snake.move_forward none }).map
          (fun g2 => { g2 with waiting_time := 0 })) ∧
    ((Game.new 10 10).is_snake_alive none = false →
      (Game.new 10 10).update_snake none =
        some { Game.new 10 10 with game_over := true, waiting_time := 0 }) ∧
    (((Game.new 10 10).update_snake none).map
        (fun g2 => { g2 with waiting_time := 0 }) =
      (Game.new 10 10).update_snake none)) :=
  ⟨rfl, c5_update_snake (Game.new 10 10) none rfl⟩

/-! ### Claim C7 -/

/-- Claim C7: whenever `add_food` completes on candidates drawn from the
interior range that `gen_range(1..width-1)` and `gen_range(1..height-1)`
guarantee, the stored food cell is interior, is not crawled over by the
(unchanged) snake, and `food_exists` is set. -/
theorem c7_add_food (g : Game) (cands : List (ℤ × ℤ)) (g' : Game)
    (hr : ∀ c ∈ cands,
      1 ≤ c.1 ∧ c.1 < g.width - 1 ∧ 1 ≤ c.2 ∧ c.2 < g.height - 1)
    (h : g.add_food cands = some g') :
    (1 ≤ g'.food_x ∧ g'.food_x < g.width - 1 ∧
     1 ≤ g'.food_y ∧ g'.food_y < g.height - 1) ∧
    g.snake.is_crawling_over g'.food_x g'.food_y = false ∧
    g'.snake = g.snake ∧ g'.food_exists = true := by
  induction cands with
  | nil => simp [Game.add_food] at h
  | cons c rest ih =>
    simp only [Game.add_food] at h
    cases hc : g.snake.is_crawling_over c.1 c.2 with
    | true =>
      rw [hc] at h
      simp only [if_true] at h
      exact ih (fun d hd => hr d (List.mem_cons_of_mem c hd)) h
    | false =>
      rw [hc] at h
      simp only [Bool.false_eq_true, if_false, Option.some.injEq] at h
      subst h
      exact ⟨by
        have := hr c (List.mem_cons_self c rest)
        simpa using this, by simpa using hc, rfl, rfl⟩

/-- Claim C7 witness: placing food on a fresh game with the single
candidate `(6, 4)`. -/
theorem c7_add_food_witness :
    (∀ c ∈ [((6 : ℤ), (4 : ℤ))],
      1 ≤ c.1 ∧ c.1 < (Game.new 10 10).width - 1 ∧
      1 ≤ c.2 ∧ c.2 < (Game.new 10 10).height - 1) ∧
    ((1 ≤ (Game.new 10 10).food_x ∧
      (Game.new 10 10).food_x < (Game.new 10 10).width - 1 ∧
      1 ≤ (Game.new 10 10).food_y ∧
      (Game.new 10 10).food_y < (Game.new 10 10).height - 1) ∧
     (Game.new 10 10).snake.is_crawling_over (Game.new 10 10).food_x
       (Game.new 10 10).food_y = false ∧
     (Game.new 10 10).snake = (Game.new 10 10).snake ∧
     (Game.new 10 10).food_exists = true) :=
  ⟨by decide,
   c7_add_food (Game.new 10 10) [(6, 4)] (Game.new 10 10) (by decide)
     (by decide)⟩

/-! ### Claim C8 -/

/-- The fresh snake occupies two distinct cells, so the degenerate
all-cells check never holds on it. -/
theorem is_crawling_over_new (a b x y : ℤ) :
    (Snake.new a b).is_crawling_over x y = false := by
  simp [Snake.new, Snake.is_crawling_over]
  omega

/-- Claim C8: on any game with `game_over` set and `waiting_time = 0.5`,
`update(0.6)` pushes the accumulator to `1.1 > 1.0` and restarts: the
result has `game_over` cleared, `waiting_time` zero, a fresh snake
constructed at `(2, 2)` — which has 3 cells — and newly placed food at
the first sampled candidate. -/
theorem c8_update_restarts (g : Game) (c : ℤ × ℤ) (cands : List (ℤ × ℤ))
    (h1 : g.game_over = true) (h2 : g.waiting_time = 1 / 2) :
    g.update (3 / 5) (c :: cands) =
      some { g with snake := Snake.new 2 2, waiting_time := 0,
                    game_over := false,
                    food_x := c.1, food_y := c.2, food_exists := true } ∧
    (Snake.new 2 2).body.length = 3 := by
  refine ⟨?_, rfl⟩
  simp [Game.update, Game.restart, Game.add_food, h1, h2,
    is_crawling_over_new]
  norm_num [RESTART_TIME]

/-- Claim C8 witness: the restart on a concrete 10-by-10 game-over state
with candidate `(5, 5)`. -/
theorem c8_update_restarts_witness :
    gameOverSample.game_over = true ∧
    gameOverSample.waiting_time = 1 / 2 ∧
    (gameOverSample.update (3 / 5) [(5, 5)] =
      some { gameOverSample with
              snake := Snake.new 2 2, waiting_time := 0, game_over := false,
              food_x := 5, food_y := 5, food_exists := true } ∧
     (Snake.new 2 2).body.length = 3) :=
  ⟨rfl, rfl, c8_update_restarts gameOverSample (5, 5) [] rfl rfl⟩

/-! ### Claim C9 -/

/-- Claim C9: whenever the computed candidate next head position lies on or
beyond the border — `x` at or outside `{0, width-1}`, or `y` at or
outside `{0, height-1}` — the liveness check returns false. -/
theorem c9_border_kills (g : Game) (dir : Option Direction)
    (h : ¬(0 < (g.snake.next_head_coords dir).1 ∧
           (g.snake.next_head_coords dir).1 < g.width - 1 ∧
           0 < (g.snake.next_head_coords dir).2 ∧
           (g.snake.next_head_coords dir).2 < g.height - 1)) :
    g.is_snake_alive dir = false := by
  by_cases hc :
      g.snake.is_crawling_over (g.snake.next_head_coords dir).1
        (g.snake.next_head_coords dir).2
  · simp [Game.is_snake_alive, hc]
  · simp only [Game.is_snake_alive, hc, Bool.if_false_left]
    simp only [Bool.and_eq_false_iff, decide_eq_false_iff_not]
    tauto

/-- Claim C9 witness: on a 4-by-4 board the fresh snake's rightward next
head `(5, 2)` is beyond the border and the liveness check fails. -/
theorem c9_border_kills_witness :
    (Game.new 4 4).is_snake_alive none = false :=
  c9_border_kills (Game.new 4 4) none (by decide)

/-! ### Claim C10: invariant machinery -/

/-- Two body blocks at distinct cells defeat the all-cells crawl check at
every coordinate pair. -/
theorem no_crawl_of_two_distinct (s : Snake) (b1 b2 : Block)
    (h1 : b1 ∈ s.body) (h2 : b2 ∈ s.body) (hne : b1 ≠ b2) (x y : ℤ) :
    s.is_crawling_over x y = false := by
  cases hcr : s.is_crawling_over x y with
  | false => rfl
  | true =>
    exfalso
    rw [is_crawling_over_iff] at hcr
    obtain ⟨hx1, hy1⟩ := hcr b1 h1
    obtain ⟨hx2, hy2⟩ := hcr b2 h2
    apply hne
    cases b1
    cases b2
    simp_all

/-- A freshly constructed snake satisfies the structural invariant. -/
theorem snakeInv_new (x y : ℤ) : SnakeInv (Snake.new x y) := by
  refine ⟨⟨x + 2, y⟩, ⟨x + 1, y⟩, [⟨x, y⟩], rfl, ?_, by simp⟩
  intro hEq
  rw [Block.mk.injEq] at hEq
  omega

/-- The next head cell always differs from the current head block. -/
theorem next_head_ne_head (s : Snake) (dir : Option Direction) (b0 : Block)
    (t : List Block) (hb : s.body = b0 :: t) :
    Block.mk (s.next_head_coords dir).1 (s.next_head_coords dir).2 ≠ b0 := by
  have hp : s.head_position = (b0.x, b0.y) := by
    simp [Snake.head_position, hb]
  cases hd : dir.getD s.direction with
  | Up =>
    have hcoords : s.next_head_coords dir = (b0.x, b0.y - 1) := by
      simp [Snake.next_head_coords, hp, hd]
    rw [hcoords]
    intro hEq
    have hy : b0.y - 1 = b0.y := congrArg Block.y hEq
    omega
  | Down =>
    have hcoords : s.next_head_coords dir = (b0.x, b0.y + 1) := by
      simp [Snake.next_head_coords, hp, hd]
    rw [hcoords]
    intro hEq
    have hy : b0.y + 1 = b0.y := congrArg Block.y hEq
    omega
  | Left =>
    have hcoords : s.next_head_coords dir = (b0.x - 1, b0.y) := by
      simp [Snake.next_head_coords, hp, hd]
    rw [hcoords]
    intro hEq
    have hx : b0.x - 1 = b0.x := congrArg Block.x hEq
    omega
  | Right =>
    have hcoords : s.next_head_coords dir = (b0.x + 1, b0.y) := by
      simp [Snake.next_head_coords, hp, hd]
    rw [hcoords]
    intro hEq
    have hx : b0.x + 1 = b0.x := congrArg Block.x hEq
    omega

/-- `move_forward` preserves the structural invariant. -/
theorem snakeInv_move_forward (s : Snake) (dir : Option Direction)
    (h : SnakeInv s) : SnakeInv (s.move_forward dir) := by
  obtain ⟨b0, b1, rest, hb, hne, hrest⟩ := h
  obtain ⟨r, rest', rfl⟩ : ∃ r rest', rest = r :: rest' := by
    cases rest with
    | nil => exact absurd rfl hrest
    | cons r rest' => exact ⟨r, rest', rfl⟩
  refine ⟨⟨(s.next_head_coords dir).1, (s.next_head_coords dir).2⟩, b0,
    b1 :: (r :: rest').dropLast, ?_, next_head_ne_head s dir b0 _ hb,
    by simp⟩
  simp [Snake.move_forward, hb]

/-- `grow` preserves the structural invariant whenever it succeeds. -/
theorem snakeInv_grow (s s' : Snake) (h : SnakeInv s)
    (hg : s.grow = some s') : SnakeInv s' := by
  obtain ⟨b0, b1, rest, hb, hne, hrest⟩ := h
  cases htail : s.tail with
  | none => simp [Snake.grow, htail] at hg
  | some t =>
    simp only [Snake.grow, htail, Option.map_some', Option.some.injEq] at hg
    subst hg
    exact ⟨b0, b1, rest ++ [t], by simp [hb], hne, by simp⟩

/-- `check_eating` preserves the structural invariant of the snake. -/
theorem snakeInv_check_eating (g g' : Game)
    (h : g.check_eating = some g') (hInv : SnakeInv g.snake) :
    SnakeInv g'.snake := by
  simp only [Game.check_eating] at h
  by_cases hc : (g.food_exists && g.snake.has_head_at g.food_x g.food_y)
      = true
  · rw [if_pos hc] at h
    rcases Option.map_eq_some'.mp h with ⟨s2, hs2, rfl⟩
    exact snakeInv_grow g.snake s2 hInv hs2
  · rw [if_neg hc] at h
    obtain rfl := Option.some.inj h
    exact hInv

/-- `update_snake` preserves the structural invariant of the snake. -/
theorem snakeInv_update_snake (g g' : Game) (dir : Option Direction)
    (h : g.update_snake dir = some g') (hInv : SnakeInv g.snake) :
    SnakeInv g'.snake := by
  simp only [Game.update_snake] at h
  rcases Option.map_eq_some'.mp h with ⟨g2, hg2, rfl⟩
  show SnakeInv g2.snake
  by_cases ha : g.is_snake_alive dir = true
  · rw [if_pos ha] at hg2
    exact snakeInv_check_eating _ _ hg2 (snakeInv_move_forward _ dir hInv)
  · rw [if_neg ha] at hg2
    obtain rfl := Option.some.inj hg2
    exact hInv

/-- `add_food` never touches the snake. -/
theorem add_food_snake (g : Game) (cands : List (ℤ × ℤ)) (g' : Game)
    (h : g.add_food cands = some g') : g'.snake = g.snake := by
  induction cands with
  | nil => simp [Game.add_food] at h
  | cons c rest ih =>
    simp only [Game.add_food] at h
    by_cases hc : g.snake.is_crawling_over c.1 c.2 = true
    · rw [if_pos hc] at h
      exact ih h
    · rw [if_neg hc] at h
      obtain rfl := Option.some.inj h
      rfl

/-- `key_pressed` preserves the structural invariant of the snake. -/
theorem snakeInv_key_pressed (g g' : Game) (k : Key)
    (h : g.key_pressed k = some g') (hInv : SnakeInv g.snake) :
    SnakeInv g'.snake := by
  simp only [Game.key_pressed] at h
  by_cases hgo : g.game_over = true
  · rw [if_pos hgo] at h
    obtain rfl := Option.some.inj h
    exact hInv
  · rw [if_neg hgo] at h
    exact snakeInv_update_snake g g' _ h hInv

/-- `update` preserves the structural invariant of the snake. -/
theorem snakeInv_update (g g' : Game) (dt : ℚ) (cands : List (ℤ × ℤ))
    (h : g.update dt cands = some g') (hInv : SnakeInv g.snake) :
    SnakeInv g'.snake := by
  simp only [Game.update] at h
  by_cases hgo : g.game_over = true
  · rw [if_pos hgo] at h
    by_cases hwt : g.waiting_time + dt > RESTART_TIME
    · rw [if_pos hwt] at h
      simp only [Game.restart] at h
      have hs := add_food_snake _ _ _ h
      rw [hs]
      exact snakeInv_new 2 2
    · rw [if_neg hwt] at h
      obtain rfl := Option.some.inj h
      exact hInv
  · rw [if_neg hgo] at h
    rcases Option.bind_eq_some.mp h with ⟨g2, hg2, hg3⟩
    have hg2snake : g2.snake = g.snake := by
      by_cases hf : g.food_exists = true
      · rw [if_pos hf] at hg2
        obtain rfl := Option.some.inj hg2
        rfl
      · rw [if_neg hf] at hg2
        have h2 := add_food_snake _ _ _ hg2
        exact h2
    have hInv2 : SnakeInv g2.snake := hg2snake ▸ hInv
    by_cases hmp : g2.waiting_time > MOVING_PERIOD
    · rw [if_pos hmp] at hg3
      exact snakeInv_update_snake _ _ _ hg3 hInv2
    · rw [if_neg hmp] at hg3
      obtain rfl := Option.some.inj hg3
      exact hInv2

/-- Every reachable game state carries the structural snake invariant. -/
theorem reachable_snakeInv (g : Game) (h : Reachable g) :
    SnakeInv g.snake := by
  induction h with
  | new w hh => exact snakeInv_new 2 2
  | key g k g' hr hstep ih => exact snakeInv_key_pressed g g' k hstep ih
  | tick g dt cands g' hr hstep ih =>
    exact snakeInv_update g g' dt cands hstep ih

/-! ### Claim C10 -/

/-- Claim C10 counterexample: a snake whose two body blocks share the cell
`(1, 1)` has at least 2 blocks, yet `is_crawling_over(1, 1)` is true —
so "at least 2 blocks" alone does not make the crawl check constantly
false; the blocks must sit at distinct cells. -/
theorem c10_counterexample :
    2 ≤ (Snake.mk Direction.Right [⟨1, 1⟩, ⟨1, 1⟩] none).body.length ∧
    (Snake.mk Direction.Right [⟨1, 1⟩, ⟨1, 1⟩]
      none).is_crawling_over 1 1 = true := by
  decide

/-- Claim C10 (amended): for every snake with two body blocks at distinct
cells, `is_crawling_over` returns false for every coordinate pair; and
every reachable game state has a snake of length at least 3 whose first
two blocks are distinct, so the self-collision branch of
`is_snake_alive` is never taken there — the check is exactly the border
check, and only border collisions end the game. -/
theorem c10_no_self_collision :
    (∀ (s : Snake) (b1 b2 : Block), b1 ∈ s.body → b2 ∈ s.body → b1 ≠ b2 →
      ∀ x y, s.is_crawling_over x y = false) ∧
    (∀ g : Game, Reachable g → 3 ≤ g.snake.body.length ∧
      ∀ dir : Option Direction,
        g.snake.is_crawling_over (g.snake.next_head_coords dir).1
          (g.snake.next_head_coords dir).2 = false ∧
        (g.is_snake_alive dir = true ↔
          0 < (g.snake.next_head_coords dir).1 ∧
          (g.snake.next_head_coords dir).1 < g.width - 1 ∧
          0 < (g.snake.next_head_coords dir).2 ∧
          (g.snake.next_head_coords dir).2 < g.height - 1)) := by
  refine ⟨no_crawl_of_two_distinct, ?_⟩
  intro g hg
  obtain ⟨b0, b1, rest, hb, hne, hrest⟩ := reachable_snakeInv g hg
  have hlenrest : 0 < rest.length := List.length_pos.mpr hrest
  have hcrawl : ∀ x y, g.snake.is_crawling_over x y = false := by
    intro x y
    exact no_crawl_of_two_distinct g.snake b0 b1
      (hb ▸ List.mem_cons_self b0 (b1 :: rest))
      (hb ▸ List.mem_cons_of_mem b0 (List.mem_cons_self b1 rest)) hne x y
  refine ⟨by rw [hb]; simp; omega, fun dir => ⟨hcrawl _ _, ?_⟩⟩
  simp [Game.is_snake_alive, hcrawl, and_assoc]

/-- Claim C10 witness: the crawl check vanishes on the fresh snake and the
initial liveness check on a 10-by-10 board reduces to the (satisfied)
border condition. -/
theorem c10_no_self_collision_witness :
    (Snake.new 2 2).is_crawling_over 9 9 = false ∧
    3 ≤ (Game.new 10 10).snake.body.length ∧
    (Game.new 10 10).is_snake_alive none = true :=
  ⟨c10_no_self_collision.1 (Snake.new 2 2) ⟨4, 2⟩ ⟨3, 2⟩
      (by simp [Snake.new]) (by simp [Snake.new]) (by decide) 9 9,
   (c10_no_self_collision.2 (Game.new 10 10) (Reachable.new 10 10)).1,
   ((c10_no_self_collision.2 (Game.new 10 10)
      (Reachable.new 10 10)).2 none).2.mpr (by decide)⟩

end SnakeGame
